import Mathlib

/-!
Verification of the feishu-billing-importer core against its design notes.

The development shallowly embeds the two source files:
* `src/backend/app/core/feishu_doc.py` — the tabular-store (Feishu bitable)
  HTTP client: token acquisition with in-process caching, default-sheet
  resolution, paginated record search, single insert and batch insert.
* `src/backend/importer.py` — the ledger extraction pipeline and the field
  mapper `convert_fields`.

Remote HTTP traffic is modelled by passing the decoded response bodies the
transport would deliver, in order, as explicit arguments; raised Python
exceptions become `Except.error`.
-/

set_option maxRecDepth 4000

namespace FeishuBilling

/-! ## Token acquisition (`FeishuDocClient.get_access_token`, feishu_doc.py 30-56) -/

/-- Decoded body of the auth endpoint response: `{code, msg, tenant_access_token}`.
`tenant_access_token` is read with `dict.get`, so it may be absent (`none`). -/
structure AuthResponse where
  code : Int
  msg : String
  tenant_access_token : Option String
deriving Repr, DecidableEq

/-- The mutable client state relevant to the claims: the cached token,
`None` before the first successful acquisition. -/
structure ClientState where
  access_token : Option String
deriving Repr, DecidableEq

/-- Python truthiness of the cached token (`if not self.access_token`):
`None` and the empty string are falsy, everything else truthy. -/
def tokenTruthy : Option String → Bool
  | none => false
  | some s => !(s == "")

/-- `get_access_token`: if the cached token is truthy, return it with no
network round-trip; otherwise issue the credential exchange (its decoded
response body is `resp`), fail unless `code == 0`, then cache and return
`tenant_access_token`.  The result carries the returned token, the state
after the call, and whether a network request was performed. -/
def get_access_token (st : ClientState) (resp : AuthResponse) :
    Except String (Option String × ClientState × Bool) :=
  if tokenTruthy st.access_token then
    .ok (st.access_token, st, false)
  else if resp.code ≠ 0 then
    .error ("获取访问令牌失败: " ++ resp.msg)
  else
    .ok (resp.tenant_access_token, { access_token := resp.tenant_access_token }, true)

/-! ## Default-sheet resolution (feishu_doc.py 73-88)

When `get_spreadsheet_records` is called without a `table_id`, it fetches the
spreadsheet description and evaluates
`result.get("data", {}).get("spreadsheet", {}).get("sheets", [])[0].get("sheet_id")`.
The `[0]` subscript on an empty `sheets` sequence raises `IndexError`; the
outcome type makes that fault explicit. -/

structure SheetInfo where
  sheet_id : String
deriving Repr, DecidableEq

/-- Decoded body of the describe-spreadsheet response. -/
structure DescribeResponse where
  code : Int
  msg : String
  sheets : List SheetInfo
deriving Repr, DecidableEq

inductive ResolveOutcome where
  /-- the `sheet_id` of the first sheet -/
  | ok (table_id : String)
  /-- the `code != 0` branch: `raise Exception("获取多维表格信息失败: ...")` -/
  | fetchFailed (msg : String)
  /-- `IndexError` from subscripting `[]` with `[0]` — an unhandled fault,
  not a defined error of the client -/
  | indexFault
deriving Repr, DecidableEq

/-- The default-table resolution step of `get_spreadsheet_records`. -/
def resolve_default_table_id (resp : DescribeResponse) : ResolveOutcome :=
  if resp.code ≠ 0 then .fetchFailed resp.msg
  else
    match resp.sheets with
    | [] => .indexFault
    | s :: _ => .ok s.sheet_id

/-! ## Paginated record search (feishu_doc.py 91-128)

The `while True` loop posts to the records-search endpoint with
`search_params = {page_size, page_token}` (`page_token` initially `""`),
raises on a non-zero body `code`, extends `all_records` with
`data.items`, and stops when `data.page_token` is falsy (absent or empty),
otherwise continues with the returned token.  The transport is modelled by
the list of decoded response bodies delivered in request order; item
payloads are opaque (`α`). -/

/-- Decoded body of one records-search response. -/
structure SearchResponse (α : Type) where
  code : Int
  msg : String
  items : List α
  page_token : Option String
deriving Repr, DecidableEq

/-- Python falsiness of `result.get("data", {}).get("page_token")`. -/
def pageTokenFalsy : Option String → Bool
  | none => true
  | some t => t == ""

/-- One execution of the search loop.  `tok` is the `page_token` about to be
sent, `acc` the records accumulated so far, `sent` the page tokens sent with
the requests already issued.  Returns the accumulated records together with
the full list of sent page tokens, or the raised error message.  An empty
response list means the transport has no answer for the next request. -/
def searchPages {α : Type} :
    List (SearchResponse α) → String → List α → List String →
    Except String (List α × List String)
  | [], _, _, _ => .error "transport: no response"
  | r :: rest, tok, acc, sent =>
    if r.code ≠ 0 then .error ("获取多维表格记录失败: " ++ r.msg)
    else
      if pageTokenFalsy r.page_token then .ok (acc ++ r.items, sent ++ [tok])
      else searchPages rest (r.page_token.getD "") (acc ++ r.items) (sent ++ [tok])

/-- `get_spreadsheet_records` with `table_id` supplied (the resolution branch
is `resolve_default_table_id`): run the search loop from the initial empty
page token with empty accumulators. -/
def get_spreadsheet_records {α : Type} (responses : List (SearchResponse α)) :
    Except String (List α × List String) :=
  searchPages responses "" [] []

/-- A response sequence shaped like the pagination claims describe: every
page but the last carries a truthy next `page_token`, the last carries none. -/
def chainedPages {α : Type} : List (SearchResponse α) → Bool
  | [] => true
  | r :: rest =>
    match rest with
    | [] => r.page_token.isNone
    | _ :: _ => !(pageTokenFalsy r.page_token) && chainedPages rest

/-- The page tokens a chained run sends: the starting token, then each
non-final page's next token in order. -/
def sentTokens {α : Type} (tok : String) (pages : List (SearchResponse α)) :
    List String :=
  tok :: pages.dropLast.map (fun r => r.page_token.getD "")

/-! ## Single and batch insert (feishu_doc.py 156-178 and 179-212)

Both `batch_add_record` and `add_spreadsheet_record` post their payload,
parse the body, and run the same check:
`if response.status_code != 200 or result.get("code") != 0: raise ...`.
The raised message interpolates the body `msg`, the transport status code and
the full response body; success returns `result.get("data", {})`. -/

/-- Decoded JSON body of an insert response (`data` may be absent). -/
structure RespBody (α : Type) where
  code : Int
  msg : String
  data : Option α
deriving Repr, DecidableEq

/-- A transport-level response: HTTP status plus decoded body. -/
structure HttpResponse (α : Type) where
  status_code : Int
  body : RespBody α
deriving Repr, DecidableEq

/-- The diagnostic content of the raised insert exception: the remote
message, the transport status and the full response body. -/
structure InsertError (α : Type) where
  remote_msg : String
  status_code : Int
  body : RespBody α
deriving Repr, DecidableEq

/-- The shared failure test: `response.status_code != 200 or result.get("code") != 0`. -/
def insertCheckFails {α : Type} (resp : HttpResponse α) : Bool :=
  resp.status_code != 200 || resp.body.code != 0

/-- `batch_add_record`, given the response to the batch-create request. -/
def batch_add_record {α : Type} (resp : HttpResponse α) :
    Except (InsertError α) (Option α) :=
  if insertCheckFails resp then
    .error { remote_msg := resp.body.msg, status_code := resp.status_code, body := resp.body }
  else .ok resp.body.data

/-- `add_spreadsheet_record`, given the response to the single-create request. -/
def add_spreadsheet_record {α : Type} (resp : HttpResponse α) :
    Except (InsertError α) (Option α) :=
  if insertCheckFails resp then
    .error { remote_msg := resp.body.msg, status_code := resp.status_code, body := resp.body }
  else .ok resp.body.data

/-! ## Ledger extraction (`import_command`, importer.py 162-197)

The decoded file content is split on `'\n'`; each line is stripped; blank
lines are skipped; `re.match(r'^\d{8}', line)` keeps only lines whose first
eight characters are decimal digits; the line is split on `','`; lines with
fewer than 11 columns are skipped; fields are picked by position and
stripped; only rows whose kind column equals `收入` or `支出` survive, each
stamped with the constant source tag and the run's batch number. -/

/-- The bases of the Unicode `Nd` (decimal digit) ranges: every decimal
digit is `base + v` for one of these bases and a value `v ∈ [0, 9]`
(Unicode 14.0, as shipped with CPython 3.11's `unicodedata`).  Python's
`\d` in a `str` pattern matches exactly these characters, and `int()`
converts them by their decimal value. -/
def ndBases : List Nat :=
  [0x30, 0x660, 0x6F0, 0x7C0, 0x966, 0x9E6, 0xA66, 0xAE6, 0xB66, 0xBE6,
   0xC66, 0xCE6, 0xD66, 0xDE6, 0xE50, 0xED0, 0xF20, 0x1040, 0x1090, 0x17E0,
   0x1810, 0x1946, 0x19D0, 0x1A80, 0x1A90, 0x1B50, 0x1BB0, 0x1C40, 0x1C50,
   0xA620, 0xA8D0, 0xA900, 0xA9D0, 0xA9F0, 0xAA50, 0xABF0, 0xFF10,
   0x104A0, 0x10D30, 0x11066, 0x110F0, 0x11136, 0x111D0, 0x112F0, 0x11450,
   0x114D0, 0x11650, 0x116C0, 0x11730, 0x118E0, 0x11950, 0x11C50, 0x11D50,
   0x11DA0, 0x16A60, 0x16AC0, 0x16B50, 0x1D7CE, 0x1D7D8, 0x1D7E2, 0x1D7EC,
   0x1D7F6, 0x1E140, 0x1E2F0, 0x1E950, 0x1FBF0]

/-- Python's regex `\d` on a `str`: a Unicode decimal digit (category `Nd`). -/
def pyIsDecimalDigit (c : Char) : Bool :=
  ndBases.any (fun b => decide (b ≤ c.toNat) && decide (c.toNat ≤ b + 9))

/-- The decimal value of a Unicode decimal digit (0 on non-digits, which
the callers never pass). -/
def pyDigitVal (c : Char) : Nat :=
  match ndBases.find? (fun b => decide (b ≤ c.toNat) && decide (c.toNat ≤ b + 9)) with
  | some b => c.toNat - b
  | none => 0

/-- Python's whitespace predicate (`str.isspace`, which is also what
`str.strip()` strips and what regex `\s` matches on a `str`): tab through
CR, the 0x1C-0x1F separators, space, NEL, NBSP, Ogham space, the U+2000
block, line/paragraph separators, narrow NBSP, math space, ideographic
space. -/
def pyIsSpace (c : Char) : Bool :=
  let n := c.toNat
  (decide (0x09 ≤ n) && decide (n ≤ 0x0D)) || n == 0x20 ||
    (decide (0x1C ≤ n) && decide (n ≤ 0x1F)) || n == 0x85 || n == 0xA0 ||
    n == 0x1680 || (decide (0x2000 ≤ n) && decide (n ≤ 0x200A)) ||
    n == 0x2028 || n == 0x2029 || n == 0x202F || n == 0x205F || n == 0x3000

/-- Python `str.strip()` on the character list: drop Unicode whitespace
from both ends. -/
def pyStripList (cs : List Char) : List Char :=
  ((cs.dropWhile pyIsSpace).reverse.dropWhile pyIsSpace).reverse

/-- Python `s.strip()`. -/
def pyStrip (s : String) : String := ⟨pyStripList s.toList⟩

/-- Python `s.split(sep)` for a one-character separator: every occurrence
separates, empty pieces are kept (`"".split(sep) == ['']`). -/
def splitOnCharAux (sep : Char) : List Char → List Char → List (List Char)
  | [], acc => [acc.reverse]
  | c :: rest, acc =>
    if c == sep then acc.reverse :: splitOnCharAux sep rest []
    else splitOnCharAux sep rest (c :: acc)

def pySplitChar (sep : Char) (s : String) : List String :=
  (splitOnCharAux sep s.toList []).map (fun cs => ⟨cs⟩)

/-- One surviving ledger row (`data_item` dict of importer.py 188-196). -/
structure DataItem where
  uniqId : String
  date : String
  money : String
  name : String
  type : String
  source : String
  batchNumber : String
deriving Repr, DecidableEq

/-- `re.match(r'^\d{8}', s)` succeeds: the string has at least eight
characters and its first eight are Unicode decimal digits (Python's `\d`
is not ASCII-only on a `str` pattern). -/
def matchEightDigits (s : String) : Bool :=
  (s.toList.take 8).length == 8 && (s.toList.take 8).all pyIsDecimalDigit

/-- Processing of one line of the ledger file (importer.py 166-197):
`some` row exactly when every guard passes, `none` when the line is dropped. -/
def processLine (batchNumber : String) (line : String) : Option DataItem :=
  let t := pyStrip line
  if t == "" then none
  else if matchEightDigits t then
    let columns := pySplitChar ',' t
    if 11 ≤ columns.length then
      let ti := pyStrip (columns.getD 10 "")
      if ti == "收入" || ti == "支出" then
        some
          { uniqId := pyStrip (columns.getD 0 "")
            date := pyStrip (columns.getD 3 "")
            money := pyStrip (columns.getD 9 "")
            name := pyStrip (columns.getD 8 "")
            type := ti
            source := "alipay"
            batchNumber := batchNumber }
      else none
    else none
  else none

/-- Extraction over a list of lines, preserving order (the `for line in lines`
loop appending to `data_item_list`). -/
def extractLines (batchNumber : String) (lines : List String) : List DataItem :=
  lines.filterMap (processLine batchNumber)

/-- Extraction from a whole decoded file: `file_content.split('\n')` then the
per-line loop. -/
def import_extract (batchNumber : String) (content : String) : List DataItem :=
  extractLines batchNumber (pySplitChar '\n' content)

/-! ## Field mapping (`convert_fields`, importer.py 27-76)

`convert_fields` builds a fresh dict by renaming the keys of `fields_map`
that occur in the input record, then coerces `日期` via
`datetime.strptime(value, '%Y-%m-%d %H:%M:%S')` /
`int(dt.timestamp() * 1000)` (keeping the original on `ValueError`) and
`金额` via `float(value)` (keeping the original on `ValueError`), and wraps
the result as `{"fields": ...}`.  Dicts are modelled as association lists in
insertion order; Python values as `Value`.  A float value is represented by
the text it was parsed from (its exact binary value is never inspected by
this code).  `strptime` on a non-string raises `TypeError`, which
`convert_fields` does not catch. -/

inductive Value where
  | str : String → Value
  | int : Int → Value
  | float : String → Value
deriving Repr, DecidableEq

inductive PyError where
  | typeError
deriving Repr, DecidableEq

/-- The payload shape `{"fields": {...}}` returned by `convert_fields`. -/
structure Payload where
  fields : List (String × Value)
deriving Repr, DecidableEq

/-- Python dict assignment `d[k] = v` on an association list: replace the
first binding of `k`, or append a new binding when `k` is absent. -/
def setKey : List (String × Value) → String → Value → List (String × Value)
  | [], k, v => [(k, v)]
  | (k', v') :: rest, k, v =>
    if k' == k then (k', v) :: rest else (k', v') :: setKey rest k v

/-- The fixed rename table `fields_map`, in its Python insertion order. -/
def fields_map : List (String × String) :=
  [("uniqId", "唯一字段"), ("date", "日期"), ("money", "金额"),
   ("name", "备注"), ("type", "收支"), ("batchNumber", "导入批次号")]

/-- The renaming loop: `for key, value in fields_map.items(): if key in
record: converted_record[value] = record[key]`. -/
def buildConverted (record : List (String × Value)) : List (String × Value) :=
  fields_map.filterMap (fun kv => (record.lookup kv.1).map (fun v => (kv.2, v)))

/-! ### `datetime.strptime(s, '%Y-%m-%d %H:%M:%S')`

CPython's `_strptime` compiles the format into a regex whose pieces are
`%Y ↦ \d\d\d\d`, `%m ↦ 1[0-2]|0[1-9]|[1-9]`, `%d ↦ 3[01]|[12]\d|0[1-9]|[1-9]`,
a whitespace run `\s+` for the literal space, `%H ↦ 2[0-3]|[0-1]\d|\d`,
`%M ↦ [0-5]\d|\d`, `%S ↦ 6[0-1]|[0-5]\d|\d`, with literal `-` and `:` in
between.  The literal digits and `[x-y]` ranges in these pieces are ASCII,
but `\d` matches any Unicode decimal digit and `\s` any Python whitespace
character, and `int()` then converts the matched digits by decimal value.
Trailing unconverted text is rejected, and the `datetime` constructor
rejects year 0, a day beyond the month's length, and the leap seconds 60/61
that the `%S` regex admits.  For this format the ordered alternations never
need backtracking (a two-digit branch can only beat a one-digit branch when
the next character is a decimal digit, while every following piece starts
with `-`, `:` or whitespace, never a digit), so a direct first-match reader
is exact. -/

def digitVal (c : Char) : Nat := c.toNat - '0'.toNat

/-- `c` is an ASCII digit whose value lies in `[lo, hi]`. -/
def digitBetween (lo hi : Nat) (c : Char) : Bool :=
  c.isDigit && decide (lo ≤ digitVal c) && decide (digitVal c ≤ hi)

/-- `%Y`: exactly four decimal digits. -/
def readYear : List Char → Option (Nat × List Char)
  | a :: b :: c :: d :: rest =>
    if pyIsDecimalDigit a && pyIsDecimalDigit b && pyIsDecimalDigit c &&
        pyIsDecimalDigit d then
      some (pyDigitVal a * 1000 + pyDigitVal b * 100 + pyDigitVal c * 10 +
        pyDigitVal d, rest)
    else none
  | _ => none

/-- `%m`: `1[0-2]|0[1-9]|[1-9]`. -/
def readMonth : List Char → Option (Nat × List Char)
  | c1 :: c2 :: rest =>
    if c1 == '1' && digitBetween 0 2 c2 then some (10 + digitVal c2, rest)
    else if c1 == '0' && digitBetween 1 9 c2 then some (digitVal c2, rest)
    else if digitBetween 1 9 c1 then some (digitVal c1, c2 :: rest)
    else none
  | [c1] => if digitBetween 1 9 c1 then some (digitVal c1, []) else none
  | [] => none

/-- `%d`: `3[01]|[12]\d|0[1-9]|[1-9]` (the lone `\d` may be any decimal
digit, the ranges are ASCII). -/
def readDay : List Char → Option (Nat × List Char)
  | c1 :: c2 :: rest =>
    if c1 == '3' && digitBetween 0 1 c2 then some (30 + digitVal c2, rest)
    else if digitBetween 1 2 c1 && pyIsDecimalDigit c2 then
      some (digitVal c1 * 10 + pyDigitVal c2, rest)
    else if c1 == '0' && digitBetween 1 9 c2 then some (digitVal c2, rest)
    else if digitBetween 1 9 c1 then some (digitVal c1, c2 :: rest)
    else none
  | [c1] => if digitBetween 1 9 c1 then some (digitVal c1, []) else none
  | [] => none

/-- `%H`: `2[0-3]|[0-1]\d|\d`. -/
def readHour : List Char → Option (Nat × List Char)
  | c1 :: c2 :: rest =>
    if c1 == '2' && digitBetween 0 3 c2 then some (20 + digitVal c2, rest)
    else if digitBetween 0 1 c1 && pyIsDecimalDigit c2 then
      some (digitVal c1 * 10 + pyDigitVal c2, rest)
    else if pyIsDecimalDigit c1 then some (pyDigitVal c1, c2 :: rest)
    else none
  | [c1] => if pyIsDecimalDigit c1 then some (pyDigitVal c1, []) else none
  | [] => none

/-- `%M`: `[0-5]\d|\d`. -/
def readMinute : List Char → Option (Nat × List Char)
  | c1 :: c2 :: rest =>
    if digitBetween 0 5 c1 && pyIsDecimalDigit c2 then
      some (digitVal c1 * 10 + pyDigitVal c2, rest)
    else if pyIsDecimalDigit c1 then some (pyDigitVal c1, c2 :: rest)
    else none
  | [c1] => if pyIsDecimalDigit c1 then some (pyDigitVal c1, []) else none
  | [] => none

/-- `%S`: `6[0-1]|[0-5]\d|\d`. -/
def readSecond : List Char → Option (Nat × List Char)
  | c1 :: c2 :: rest =>
    if c1 == '6' && digitBetween 0 1 c2 then some (60 + digitVal c2, rest)
    else if digitBetween 0 5 c1 && pyIsDecimalDigit c2 then
      some (digitVal c1 * 10 + pyDigitVal c2, rest)
    else if pyIsDecimalDigit c1 then some (pyDigitVal c1, c2 :: rest)
    else none
  | [c1] => if pyIsDecimalDigit c1 then some (pyDigitVal c1, []) else none
  | [] => none

def skipSpaces : List Char → List Char
  | c :: rest => if pyIsSpace c then skipSpaces rest else c :: rest
  | [] => []

/-- The `\s+` piece the literal space compiles to: at least one Python
whitespace character, consumed greedily. -/
def readSpaces1 : List Char → Option (List Char)
  | c :: rest => if pyIsSpace c then some (skipSpaces rest) else none
  | [] => none

def expectChar (c : Char) : List Char → Option (List Char)
  | c' :: rest => if c' == c then some rest else none
  | [] => none

/-- A parsed wall-clock date-time. -/
structure CivilTime where
  year : Nat
  month : Nat
  day : Nat
  hour : Nat
  minute : Nat
  second : Nat
deriving Repr, DecidableEq

def isLeapYear (y : Nat) : Bool :=
  y % 4 == 0 && (y % 100 != 0 || y % 400 == 0)

def daysInMonth (y m : Nat) : Nat :=
  if m == 2 then (if isLeapYear y then 29 else 28)
  else if m == 4 || m == 6 || m == 9 || m == 11 then 30
  else 31

/-- `datetime.strptime(s, '%Y-%m-%d %H:%M:%S')`: `some` on success, `none`
for the `ValueError` that `convert_fields` catches. -/
def strptimeYmdHMS (s : String) : Option CivilTime := do
  let cs := s.toList
  let (y, cs) ← readYear cs
  let cs ← expectChar '-' cs
  let (m, cs) ← readMonth cs
  let cs ← expectChar '-' cs
  let (d, cs) ← readDay cs
  let cs ← readSpaces1 cs
  let (h, cs) ← readHour cs
  let cs ← expectChar ':' cs
  let (mi, cs) ← readMinute cs
  let cs ← expectChar ':' cs
  let (sec, cs) ← readSecond cs
  if cs.isEmpty ∧ 1 ≤ y ∧ d ≤ daysInMonth y m ∧ sec ≤ 59 then
    some { year := y, month := m, day := d, hour := h, minute := mi, second := sec }
  else none

/-- Days since 1970-01-01 of a proleptic-Gregorian civil date
(the standard days-from-civil computation; all intermediate quantities are
non-negative for the years `strptimeYmdHMS` can produce). -/
def daysFromCivil (y m d : Int) : Int :=
  let yAdj := if m ≤ 2 then y - 1 else y
  let era := (if 0 ≤ yAdj then yAdj else yAdj - 399) / 400
  let yoe := yAdj - era * 400
  let mp := (m + 9) % 12
  let doy := (153 * mp + 2) / 5 + d - 1
  let doe := yoe * 365 + yoe / 4 - yoe / 100 + doy
  era * 146097 + doe - 719468

/-- `int(dt.timestamp() * 1000)` for a naive `datetime`: the civil time is
interpreted in the process's local timezone, modelled as a fixed offset of
`tzOffsetSeconds` seconds east of UTC.  The float product is exact for
representable epochs, so integer arithmetic is faithful. -/
def pyTimestampMillis (tzOffsetSeconds : Int) (dt : CivilTime) : Int :=
  (daysFromCivil dt.year dt.month dt.day * 86400
    + dt.hour * 3600 + dt.minute * 60 + dt.second - tzOffsetSeconds) * 1000

/-! ### `float(s)` acceptance

Only acceptance matters to `convert_fields` (failure raises the caught
`ValueError`).  CPython first transforms the string (Unicode decimal digits
to their ASCII digits, Unicode whitespace to plain space), then strips
spaces and parses sign? (inf | infinity | nan (case-insensitive) |
mantissa exponent?), with single underscores permitted between digits. -/

/-- The per-character transform `float()` applies before parsing. -/
def pyToDecimalAscii (c : Char) : Char :=
  if pyIsSpace c then ' '
  else if pyIsDecimalDigit c then Char.ofNat (0x30 + pyDigitVal c)
  else c

/-- The transformed, space-stripped character list `float(s)` parses. -/
def pyFloatChars (s : String) : List Char :=
  let ds := s.toList.map pyToDecimalAscii
  ((ds.dropWhile (fun c => c == ' ')).reverse.dropWhile (fun c => c == ' ')).reverse

def afterSign : List Char → List Char
  | '+' :: rest => rest
  | '-' :: rest => rest
  | cs => cs

/-- Consume further digits, allowing a single `_` between two digits. -/
def readDigitsUAux : List Char → List Char
  | '_' :: c :: rest => if c.isDigit then readDigitsUAux rest else '_' :: c :: rest
  | c :: rest => if c.isDigit then readDigitsUAux rest else c :: rest
  | [] => []

/-- One or more digits with embedded underscores; `none` without a leading digit. -/
def readDigitsU : List Char → Option (List Char)
  | c :: rest => if c.isDigit then some (readDigitsUAux rest) else none
  | [] => none

/-- `digits [. digits?] | . digits`. -/
def readMantissa (cs : List Char) : Option (List Char) :=
  match readDigitsU cs with
  | some rest =>
    match rest with
    | '.' :: rest2 =>
      match readDigitsU rest2 with
      | some rest3 => some rest3
      | none => some rest2
    | _ => some rest
  | none =>
    match cs with
    | '.' :: rest2 => readDigitsU rest2
    | _ => none

/-- Optional `(e|E) sign? digits`. -/
def readExponent : List Char → Option (List Char)
  | [] => some []
  | c :: rest =>
    if c == 'e' || c == 'E' then readDigitsU (afterSign rest)
    else some (c :: rest)

def isInfNanText (cs : List Char) : Bool :=
  let l := cs.map Char.toLower
  l == ['i', 'n', 'f'] || l == ['i', 'n', 'f', 'i', 'n', 'i', 't', 'y'] ||
    l == ['n', 'a', 'n']

/-- `float(s)` succeeds on the string `s`. -/
def isFloatLiteral (s : String) : Bool :=
  let cs := afterSign (pyFloatChars s)
  if isInfNanText cs then true
  else
    match readMantissa cs with
    | some rest =>
      match readExponent rest with
      | some [] => true
      | _ => false
    | none => false

/-- `float(value)` for the values this code can hold: ints and floats
convert, strings convert when they are float literals (`none` is the caught
`ValueError`).  A float value is represented by the transformed literal it
was parsed from. -/
def pyFloatValue : Value → Option Value
  | .int n => some (.float (toString n))
  | .float f => some (.float f)
  | .str s => if isFloatLiteral s then some (.float ⟨pyFloatChars s⟩) else none

/-- The `日期` coercion block of `convert_fields` (importer.py 56-64):
`strptime` on a non-string raises an uncaught `TypeError`; a parse failure
on a string is caught and keeps the original value; success stores the
epoch-millisecond integer. -/
def applyDateCoercion (tz : Int) (m : List (String × Value)) :
    Except PyError (List (String × Value)) :=
  match m.lookup "日期" with
  | none => .ok m
  | some (.str s) =>
    match strptimeYmdHMS s with
    | some dt => .ok (setKey m "日期" (.int (pyTimestampMillis tz dt)))
    | none => .ok m
  | some _ => .error .typeError

/-- The `金额` coercion block of `convert_fields` (importer.py 67-72). -/
def applyMoneyCoercion (m : List (String × Value)) : List (String × Value) :=
  match m.lookup "金额" with
  | none => m
  | some v =>
    match pyFloatValue v with
    | some f => setKey m "金额" f
    | none => m

/-- `convert_fields` (importer.py 27-76): rename keys into a fresh dict,
coerce `日期` and `金额`, and wrap as `{"fields": ...}`.  The first component
of the result is the caller's record as it stands after the call — the
source only ever reads from `record`, so the embedding threads it through
unchanged on every path, including the raising one. -/
def convert_fields (tz : Int) (record : List (String × Value)) :
    List (String × Value) × Except PyError Payload :=
  match applyDateCoercion tz (buildConverted record) with
  | .error e => (record, .error e)
  | .ok c1 => (record, .ok { fields := applyMoneyCoercion c1 })

/-! ## Theorems -/

/-- C3: for every call to `batch_add_record` and `add_spreadsheet_record`,
the call succeeds iff the transport status equals 200 and the body `code`
equals 0; a 200-status response with a non-zero body code raises the insert
error, as does a non-200-status response with body code 0, the error
carrying the remote message, the transport status and the full response
body. -/
theorem insert_success_iff {α : Type} (resp : HttpResponse α) :
    ((∃ d, batch_add_record resp = .ok d) ↔
      (resp.status_code = 200 ∧ resp.body.code = 0))
    ∧ ((∃ d, add_spreadsheet_record resp = .ok d) ↔
      (resp.status_code = 200 ∧ resp.body.code = 0))
    ∧ (resp.status_code = 200 → resp.body.code ≠ 0 →
        batch_add_record resp =
          .error { remote_msg := resp.body.msg, status_code := resp.status_code, body := resp.body }
        ∧ add_spreadsheet_record resp =
          .error { remote_msg := resp.body.msg, status_code := resp.status_code, body := resp.body })
    ∧ (resp.status_code ≠ 200 → resp.body.code = 0 →
        batch_add_record resp =
          .error { remote_msg := resp.body.msg, status_code := resp.status_code, body := resp.body }
        ∧ add_spreadsheet_record resp =
          .error { remote_msg := resp.body.msg, status_code := resp.status_code, body := resp.body }) := by
  by_cases h1 : resp.status_code = 200 <;> by_cases h2 : resp.body.code = 0 <;>
    simp [batch_add_record, add_spreadsheet_record, insertCheckFails, h1, h2]

/-- Witness for C3: a 200-status response with body code 5 raises on
`batch_add_record`, a 500-status response with body code 0 raises on
`add_spreadsheet_record`. -/
theorem insert_success_iff_witness :
    batch_add_record (α := Nat) ⟨200, ⟨5, "err", none⟩⟩ =
      .error { remote_msg := "err", status_code := 200, body := ⟨5, "err", none⟩ }
    ∧ add_spreadsheet_record (α := Nat) ⟨500, ⟨0, "ok", some 1⟩⟩ =
      .error { remote_msg := "ok", status_code := 500, body := ⟨0, "ok", some 1⟩ } :=
  ⟨((insert_success_iff ⟨200, ⟨5, "err", none⟩⟩).2.2.1 rfl (by decide)).1,
   ((insert_success_iff ⟨500, ⟨0, "ok", some 1⟩⟩).2.2.2 (by decide) rfl).2⟩

/-- C4: on a describe-spreadsheet response that satisfies the success
sentinel but carries no sheets, the source's default-table resolution does
not reach a defined error — it subscripts the empty `sheets` list and raises
`IndexError` (the latent fault the design notes call out). -/
theorem resolve_default_table_empty_sheets_fault (msg : String) :
    resolve_default_table_id { code := 0, msg := msg, sheets := [] } =
      ResolveOutcome.indexFault := by
  simp [resolve_default_table_id]

/-- C5 counterexample: a first call that succeeds with the empty-string
token caches a falsy value, so the next call issues another network request
(third component `true`) and can return a different token. -/
theorem get_access_token_empty_token_refetch :
    get_access_token { access_token := none }
        { code := 0, msg := "", tenant_access_token := some "" } =
      .ok (some "", { access_token := some "" }, true)
    ∧ get_access_token { access_token := some "" }
        { code := 0, msg := "", tenant_access_token := some "tok2" } =
      .ok (some "tok2", { access_token := some "tok2" }, true)
    ∧ (some "tok2" : Option String) ≠ some "" :=
  ⟨rfl, rfl, by decide⟩

/-- C5 (amended): for every client whose first call succeeded with a
non-empty token, every subsequent call returns the same cached token and
performs no further network request. -/
theorem get_access_token_idempotent_nonempty (r₁ r₂ : AuthResponse) (t : String)
    (hc : r₁.code = 0) (ht : r₁.tenant_access_token = some t) (hne : t ≠ "") :
    get_access_token { access_token := none } r₁ =
      .ok (some t, { access_token := some t }, true)
    ∧ get_access_token { access_token := some t } r₂ =
      .ok (some t, { access_token := some t }, false) := by
  constructor
  · simp [get_access_token, tokenTruthy, hc, ht]
  · simp [get_access_token, tokenTruthy, hne]

/-- Witness for the amended C5. -/
theorem get_access_token_idempotent_nonempty_witness :
    get_access_token { access_token := none }
        { code := 0, msg := "", tenant_access_token := some "tk" } =
      .ok (some "tk", { access_token := some "tk" }, true)
    ∧ get_access_token { access_token := some "tk" }
        { code := 1, msg := "down", tenant_access_token := none } =
      .ok (some "tk", { access_token := some "tk" }, false) :=
  get_access_token_idempotent_nonempty _ _ "tk" rfl rfl (by decide)

/-- C9: `convert_fields` never mutates its input record; the record after
the call equals the record before it, on the raising path included. -/
theorem convert_fields_preserves_input (tz : Int) (record : List (String × Value)) :
    (convert_fields tz record).1 = record := by
  cases hd : applyDateCoercion tz (buildConverted record) <;>
    simp [convert_fields, hd]

/-- C6 counterexample to the claim as stated: a line whose stripped text
begins with eight fullwidth digits — not ASCII digits — still yields a row,
because Python's `\d` matches any Unicode decimal digit. -/
theorem extract_line_fullwidth_digits_row :
    (processLine "b1" "１２３４５６７８,a,b,c,d,e,f,g,h,i,收入").isSome = true
    ∧ ((pyStrip "１２３４５６７８,a,b,c,d,e,f,g,h,i,收入").toList.take 8).all
        (fun c => c.isDigit) = false :=
  ⟨by decide, by decide⟩

/-- C6 (amended): a line yields a row only if its stripped text starts with
eight Unicode decimal digits (Python's `\d`) and splits into at least 11
comma-separated columns; a non-blank line failing the digit test is
dropped, and a digit-matching line with fewer than 11 columns is dropped. -/
theorem extract_line_eight_digit_guard (batch line : String) :
    ((processLine batch line).isSome = true →
        matchEightDigits (pyStrip line) = true
        ∧ 11 ≤ (pySplitChar ',' (pyStrip line)).length)
    ∧ (pyStrip line ≠ "" → matchEightDigits (pyStrip line) = false →
        processLine batch line = none)
    ∧ (matchEightDigits (pyStrip line) = true →
        (pySplitChar ',' (pyStrip line)).length < 11 →
        processLine batch line = none) := by
  refine ⟨?_, ?_, ?_⟩
  · intro h
    cases h1 : matchEightDigits (pyStrip line) with
    | false => simp [processLine, h1] at h
    | true =>
      refine ⟨rfl, ?_⟩
      by_cases h2 : 11 ≤ (pySplitChar ',' (pyStrip line)).length
      · exact h2
      · simp [processLine, h1, h2] at h
  · intro _ h1
    simp [processLine, h1]
  · intro h1 h2
    have h2' : ¬ 11 ≤ (pySplitChar ',' (pyStrip line)).length := by omega
    simp [processLine, h1, h2']

/-- Witness for C6: a non-digit line and a short digit-led line are both
dropped. -/
theorem extract_line_eight_digit_guard_witness :
    processLine "b1" "hello" = none ∧ processLine "b1" "12345678,a" = none :=
  ⟨(extract_line_eight_digit_guard "b1" "hello").2.1 (by decide) (by decide),
   (extract_line_eight_digit_guard "b1" "12345678,a").2.2 (by decide) (by decide)⟩

/-- Every row `processLine` emits carries one of the two recognized kinds. -/
lemma processLine_type_cases (batch l : String) (r : DataItem)
    (h : processLine batch l = some r) :
    r.type = "收入" ∨ r.type = "支出" := by
  simp only [processLine] at h
  split at h
  · exact Option.noConfusion h
  · split at h
    · split at h
      · split at h
        · rename_i hcond
          obtain rfl : _ = r := Option.some.inj h
          simpa using hcond
        · exact Option.noConfusion h
      · exact Option.noConfusion h
    · exact Option.noConfusion h

/-- C7: every extracted row's kind is one of exactly the two recognized
labels, and a line whose kind column holds any other text (the empty string
included) yields no row. -/
theorem extract_kind_invariant (batch content line : String) (item : DataItem) :
    (item ∈ import_extract batch content →
      item.type = "收入" ∨ item.type = "支出")
    ∧ (pyStrip ((pySplitChar ',' (pyStrip line)).getD 10 "") ≠ "收入" →
       pyStrip ((pySplitChar ',' (pyStrip line)).getD 10 "") ≠ "支出" →
       processLine batch line = none) := by
  constructor
  · intro hmem
    simp only [import_extract, extractLines, List.mem_filterMap] at hmem
    obtain ⟨l, _, hl⟩ := hmem
    exact processLine_type_cases batch l item hl
  · intro h1 h2
    simp only [processLine]
    split
    · rfl
    · split
      · split
        · split
          · rename_i hcond
            exfalso
            simp only [Bool.or_eq_true, beq_iff_eq] at hcond
            rcases hcond with hc | hc
            · exact h1 hc
            · exact h2 hc
          · rfl
        · rfl
      · rfl

/-- Witness for C7: a concrete ledger produces a row of kind `收入`, and a
line whose kind column reads `转账` produces none. -/
theorem extract_kind_invariant_witness :
    ((⟨"12345678", "c", "i", "h", "收入", "alipay", "b1"⟩ : DataItem).type = "收入"
      ∨ (⟨"12345678", "c", "i", "h", "收入", "alipay", "b1"⟩ : DataItem).type = "支出")
    ∧ processLine "b1" "12345678,a,b,c,d,e,f,g,h,i,转账" = none :=
  ⟨(extract_kind_invariant "b1" "12345678,a,b,c,d,e,f,g,h,i,收入"
      "x" ⟨"12345678", "c", "i", "h", "收入", "alipay", "b1"⟩).1 (by decide),
   (extract_kind_invariant "b1" "x" "12345678,a,b,c,d,e,f,g,h,i,转账"
      ⟨"", "", "", "", "", "", ""⟩).2 (by decide) (by decide)⟩

/-- Running the search loop over a chained response sequence from any
starting point accumulates every page's items in order and sends one token
per page, the starting token first. -/
lemma searchPages_chained (α : Type) :
    ∀ (pages : List (SearchResponse α)) (tok : String) (acc : List α) (sent : List String),
      pages ≠ [] → (∀ r ∈ pages, r.code = 0) → chainedPages pages = true →
      searchPages pages tok acc sent =
        .ok (acc ++ (pages.map (fun r => r.items)).flatten, sent ++ sentTokens tok pages) := by
  intro pages
  induction pages with
  | nil => intro tok acc sent hne _ _; exact absurd rfl hne
  | cons r rest ih =>
    intro tok acc sent _ hok hchain
    have hr : r.code = 0 := hok r (by simp)
    cases rest with
    | nil =>
      have htok : r.page_token = none := by
        simpa [chainedPages, Option.isNone_iff_eq_none] using hchain
      simp [searchPages, hr, htok, pageTokenFalsy, sentTokens]
    | cons q rest' =>
      have hchain' : (!(pageTokenFalsy r.page_token) && chainedPages (q :: rest')) = true := by
        simpa [chainedPages] using hchain
      simp only [Bool.and_eq_true] at hchain'
      obtain ⟨hfalsy, hrest⟩ := hchain'
      have hfalsy' : pageTokenFalsy r.page_token = false := by
        simpa using hfalsy
      have hrec := ih (r.page_token.getD "") (acc ++ r.items) (sent ++ [tok])
        (by simp) (fun p hp => hok p (by simp [hp])) hrest
      have hstep : searchPages (r :: q :: rest') tok acc sent =
          searchPages (q :: rest') (r.page_token.getD "") (acc ++ r.items) (sent ++ [tok]) := by
        simp [searchPages, hr, hfalsy']
      rw [hstep, hrec]
      simp [sentTokens, List.dropLast, List.append_assoc]

/-- C1: over any chained sequence of N successful pages (the first N−1 with
a truthy next token, the last with none), the search returns the
concatenation of all pages' items in page order, issues exactly N requests,
and sends the empty page token on the first request. -/
theorem get_spreadsheet_records_paginates {α : Type}
    (pages : List (SearchResponse α)) (hne : pages ≠ [])
    (hok : ∀ r ∈ pages, r.code = 0) (hchain : chainedPages pages = true) :
    get_spreadsheet_records pages =
        .ok ((pages.map (fun r => r.items)).flatten, sentTokens "" pages)
    ∧ (sentTokens "" pages).length = pages.length
    ∧ (sentTokens "" pages).head? = some "" := by
  have h := searchPages_chained α pages "" [] [] hne hok hchain
  simp only [List.nil_append] at h
  refine ⟨h, ?_, rfl⟩
  have hpos : 0 < pages.length := List.length_pos.mpr hne
  simp only [sentTokens, List.length_cons, List.length_map, List.length_dropLast]
  omega

/-- Witness for C1: two pages with items `[1, 2]` and `[3]`. -/
theorem get_spreadsheet_records_paginates_witness :
    get_spreadsheet_records (α := Nat)
        [⟨0, "", [1, 2], some "t"⟩, ⟨0, "", [3], none⟩] =
      .ok ((([⟨0, "", [1, 2], some "t"⟩, ⟨0, "", [3], none⟩] :
          List (SearchResponse Nat)).map (fun r => r.items)).flatten,
        sentTokens "" [⟨0, "", [1, 2], some "t"⟩, ⟨0, "", [3], none⟩])
    ∧ (sentTokens "" ([⟨0, "", [1, 2], some "t"⟩, ⟨0, "", [3], none⟩] :
        List (SearchResponse Nat))).length =
      ([⟨0, "", [1, 2], some "t"⟩, ⟨0, "", [3], none⟩] :
        List (SearchResponse Nat)).length
    ∧ (sentTokens "" ([⟨0, "", [1, 2], some "t"⟩, ⟨0, "", [3], none⟩] :
        List (SearchResponse Nat))).head? = some "" :=
  get_spreadsheet_records_paginates _ (by decide) (by decide) (by decide)

/-- If the transport delivers only successful truthy-token pages before a
failing page, the loop reaches the failing page and raises. -/
lemma searchPages_fails (α : Type) (bad : SearchResponse α)
    (rest : List (SearchResponse α)) (hbad : bad.code ≠ 0) :
    ∀ (pre : List (SearchResponse α)) (tok : String) (acc : List α) (sent : List String),
      (∀ r ∈ pre, r.code = 0 ∧ pageTokenFalsy r.page_token = false) →
      ∃ e, searchPages (pre ++ bad :: rest) tok acc sent = .error e := by
  intro pre
  induction pre with
  | nil =>
    intro tok acc sent _
    refine ⟨"获取多维表格记录失败: " ++ bad.msg, ?_⟩
    simp [searchPages, hbad]
  | cons r pre' ih =>
    intro tok acc sent hpre
    obtain ⟨hr, hf⟩ := hpre r (by simp)
    have hrec := ih (r.page_token.getD "") (acc ++ r.items) (sent ++ [tok])
      (fun p hp => hpre p (by simp [hp]))
    simpa [searchPages, hr, hf] using hrec

/-- C2: when a page of the search fails the success sentinel (non-zero body
code), the whole search raises and returns nothing — items accumulated from
the earlier successful pages are discarded. -/
theorem get_spreadsheet_records_page_failure {α : Type}
    (pre : List (SearchResponse α)) (bad : SearchResponse α)
    (rest : List (SearchResponse α))
    (hpre : ∀ r ∈ pre, r.code = 0 ∧ pageTokenFalsy r.page_token = false)
    (hbad : bad.code ≠ 0) :
    ∃ e, get_spreadsheet_records (pre ++ bad :: rest) = .error e := by
  simpa [get_spreadsheet_records] using
    searchPages_fails α bad rest hbad pre "" [] [] hpre

/-- Witness for C2: the second page answers with body code 5; the first
page's items `[1]` are not returned. -/
theorem get_spreadsheet_records_page_failure_witness :
    ∃ e, get_spreadsheet_records (α := Nat)
        ([⟨0, "", [1], some "t"⟩] ++ ⟨5, "boom", [7], none⟩ :: []) = .error e :=
  get_spreadsheet_records_page_failure [⟨0, "", [1], some "t"⟩]
    ⟨5, "boom", [7], none⟩ [] (by decide) (by decide)

/-- Extraction distributes over concatenation of line blocks. -/
lemma extractLines_append (batch : String) (xs ys : List String) :
    extractLines batch (xs ++ ys) = extractLines batch xs ++ extractLines batch ys := by
  simp [extractLines, List.filterMap_append]

/-- A qualifying line contributes exactly its row at its position. -/
lemma extractLines_cons_some (batch l : String) (r : DataItem) (ls : List String)
    (h : processLine batch l = some r) :
    extractLines batch (l :: ls) = r :: extractLines batch ls := by
  simp [extractLines, List.filterMap_cons, h]

/-- One output row per qualifying line. -/
lemma extractLines_length (batch : String) (ls : List String) :
    (extractLines batch ls).length =
      ls.countP (fun l => (processLine batch l).isSome) := by
  induction ls with
  | nil => rfl
  | cons l ls ih =>
    cases h : processLine batch l <;>
      simpa [extractLines, List.filterMap_cons, h, List.countP_cons] using ih

/-- C10: extraction emits exactly one row per qualifying line, in input
order, with no deduplication — two qualifying lines that share a `uniqId`
both appear, in input order. -/
theorem extract_order_no_dedup (batch : String) (pre mid post : List String)
    (l₁ l₂ : String) (r₁ r₂ : DataItem)
    (h₁ : processLine batch l₁ = some r₁) (h₂ : processLine batch l₂ = some r₂)
    (_hid : r₁.uniqId = r₂.uniqId) :
    extractLines batch (pre ++ l₁ :: (mid ++ l₂ :: post)) =
      extractLines batch pre ++
        r₁ :: (extractLines batch mid ++ r₂ :: extractLines batch post)
    ∧ ∀ ls : List String,
        (extractLines batch ls).length =
          ls.countP (fun l => (processLine batch l).isSome) := by
  refine ⟨?_, fun ls => extractLines_length batch ls⟩
  rw [extractLines_append, extractLines_cons_some batch l₁ r₁ _ h₁,
    extractLines_append, extractLines_cons_some batch l₂ r₂ _ h₂]

/-- Witness for C10: the same qualifying line twice — both occurrences
appear in the output, in order. -/
theorem extract_order_no_dedup_witness :
    extractLines "b1" ([] ++ "12345678,a,b,c,d,e,f,g,h,i,收入" ::
        ([] ++ "12345678,a,b,c,d,e,f,g,h,i,收入" :: [])) =
      extractLines "b1" [] ++
        (⟨"12345678", "c", "i", "h", "收入", "alipay", "b1"⟩ : DataItem) ::
          (extractLines "b1" [] ++
            (⟨"12345678", "c", "i", "h", "收入", "alipay", "b1"⟩ : DataItem) ::
              extractLines "b1" []) :=
  (extract_order_no_dedup "b1" [] [] [] _ _
    ⟨"12345678", "c", "i", "h", "收入", "alipay", "b1"⟩
    ⟨"12345678", "c", "i", "h", "收入", "alipay", "b1"⟩
    (by decide) (by decide) rfl).1

/-- Looking up the key just assigned finds the assigned value. -/
lemma lookup_setKey_self (m : List (String × Value)) (k : String) (v : Value) :
    (setKey m k v).lookup k = some v := by
  induction m with
  | nil => simp [setKey, List.lookup]
  | cons kv rest ih =>
    obtain ⟨a, b⟩ := kv
    by_cases h : a = k
    · have hb : (k == a) = true := beq_iff_eq.mpr h.symm
      simp [setKey, h, hb, List.lookup]
    · have hb : (k == a) = false := beq_eq_false_iff_ne.mpr fun e => h e.symm
      have hb2 : (a == k) = false := beq_eq_false_iff_ne.mpr h
      simp [setKey, hb, hb2, List.lookup, ih]

/-- Assigning one key leaves lookups of a different key unchanged. -/
lemma lookup_setKey_ne (m : List (String × Value)) (k k' : String) (v : Value)
    (hne : k ≠ k') :
    (setKey m k' v).lookup k = m.lookup k := by
  have hkk : (k == k') = false := beq_eq_false_iff_ne.mpr hne
  induction m with
  | nil => simp [setKey, List.lookup, hkk]
  | cons kv rest ih =>
    obtain ⟨a, b⟩ := kv
    by_cases h : a = k'
    · have hb : (k == a) = false := beq_eq_false_iff_ne.mpr fun e => hne (h ▸ e)
      have hb2 : (a == k') = true := beq_iff_eq.mpr h
      simp [setKey, hb, hb2, List.lookup]
    · have hb2 : (a == k') = false := beq_eq_false_iff_ne.mpr h
      simp [setKey, hb2, List.lookup, ih]

/-- The `金额` coercion never touches the `日期` binding. -/
lemma lookup_applyMoneyCoercion (m : List (String × Value)) :
    (applyMoneyCoercion m).lookup "日期" = m.lookup "日期" := by
  unfold applyMoneyCoercion
  cases h : m.lookup "金额" with
  | none => rfl
  | some v =>
    cases hf : pyFloatValue v with
    | none => simp [hf]
    | some f => simp [hf, lookup_setKey_ne m "日期" "金额" f (by decide)]

/-- After the rename pass, the `日期` binding holds exactly the record's
`date` value. -/
lemma buildConverted_lookup_date (record : List (String × Value)) (v : Value)
    (hd : record.lookup "date" = some v) :
    (buildConverted record).lookup "日期" = some v := by
  unfold buildConverted fields_map
  cases hu : record.lookup "uniqId" <;>
    simp [List.filterMap_cons, hu, hd, List.lookup]

/-- C8: when the record's `date` value is a string that parses under
`%Y-%m-%d %H:%M:%S`, `convert_fields` replaces it in the output payload
with that date's epoch-millisecond integer, exactly; when the parse fails,
the payload carries the original string unchanged and no error is raised. -/
theorem convert_fields_date_coercion (tz : Int)
    (record : List (String × Value)) (s : String)
    (hd : record.lookup "date" = some (.str s)) :
    (∀ dt, strptimeYmdHMS s = some dt →
      ∃ out, convert_fields tz record = (record, .ok out) ∧
        out.fields.lookup "日期" = some (.int (pyTimestampMillis tz dt)))
    ∧ (strptimeYmdHMS s = none →
      ∃ out, convert_fields tz record = (record, .ok out) ∧
        out.fields.lookup "日期" = some (.str s)) := by
  have hb := buildConverted_lookup_date record (.str s) hd
  constructor
  · intro dt hp
    refine ⟨⟨applyMoneyCoercion
        (setKey (buildConverted record) "日期" (.int (pyTimestampMillis tz dt)))⟩, ?_, ?_⟩
    · simp [convert_fields, applyDateCoercion, hb, hp]
    · rw [lookup_applyMoneyCoercion, lookup_setKey_self]
  · intro hp
    refine ⟨⟨applyMoneyCoercion (buildConverted record)⟩, ?_, ?_⟩
    · simp [convert_fields, applyDateCoercion, hb, hp]
    · rw [lookup_applyMoneyCoercion]
      exact hb

/-- Witness for C8: `"2024-01-02 10:00:00"` becomes the epoch milliseconds
1704189600000 (UTC offset 0). -/
theorem convert_fields_date_coercion_witness :
    ∃ out, convert_fields 0 [("date", Value.str "2024-01-02 10:00:00")] =
        ([("date", Value.str "2024-01-02 10:00:00")], .ok out)
      ∧ out.fields.lookup "日期" = some (Value.int 1704189600000) :=
  (convert_fields_date_coercion 0 [("date", Value.str "2024-01-02 10:00:00")]
      "2024-01-02 10:00:00" (by decide)).1
    ⟨2024, 1, 2, 10, 0, 0⟩ (by decide)

end FeishuBilling
